import Mathlib

/-!
Verification of the zenoh_ffi facade (src/zenoh_ffi.c, src/zenoh_dart.c,
src/zenoh_dart.h) against its natural-language specification.

The C sources are shallowly embedded: byte buffers become lists of naturals,
pointers that may be NULL become Option, malloc outcomes are given by a
Boolean oracle indexed by allocation order, and the callback-invoking
handlers produce an explicit chronological event trace (allocations, frees,
callback invocations).  The zenoh substrate is an external collaborator:
its key-expression validator and its status codes are abstract parameters,
and the public operations record which substrate primitives they invoke.
-/

namespace ZenohFfi

/-- Byte strings crossing the boundary, as lists of naturals. -/
abbrev Bytes := List Nat

/-- Bytes of a C string literal. -/
def strBytes (s : String) : Bytes := s.data.map Char.toNat

/-! ## Encoding identifiers (zenoh_dart.h:72-97, zenoh_ffi.c:229-328) -/

/-- ZenohEncodingId (zenoh_dart.h:72-97): the closed enumeration of
payload encodings. -/
inductive ZenohEncodingId
  | empty
  | bytes
  | string
  | json
  | textPlain
  | textJson
  | textHtml
  | textXml
  | textCss
  | textCsv
  | textJavascript
  | imagePng
  | imageJpeg
  | imageGif
  | imageBmp
  | imageWebp
  | applicationOctetStream
  | applicationJson
  | applicationXml
  | applicationCbor
  | applicationYaml
  | applicationProtobuf
  | applicationCdr
  | custom
deriving DecidableEq

/-- zenoh_encoding_to_string (zenoh_ffi.c:229-280).  The C switch has a
default branch returning "unknown"; within the closed enumeration only
ZENOH_ENCODING_CUSTOM reaches it. -/
def zenoh_encoding_to_string : ZenohEncodingId → String
  | ZenohEncodingId.empty => "empty"
  | ZenohEncodingId.bytes => "zenoh/bytes"
  | ZenohEncodingId.string => "zenoh/string"
  | ZenohEncodingId.json => "application/json"
  | ZenohEncodingId.textPlain => "text/plain"
  | ZenohEncodingId.textJson => "text/json"
  | ZenohEncodingId.textHtml => "text/html"
  | ZenohEncodingId.textXml => "text/xml"
  | ZenohEncodingId.textCss => "text/css"
  | ZenohEncodingId.textCsv => "text/csv"
  | ZenohEncodingId.textJavascript => "text/javascript"
  | ZenohEncodingId.imagePng => "image/png"
  | ZenohEncodingId.imageJpeg => "image/jpeg"
  | ZenohEncodingId.imageGif => "image/gif"
  | ZenohEncodingId.imageBmp => "image/bmp"
  | ZenohEncodingId.imageWebp => "image/webp"
  | ZenohEncodingId.applicationOctetStream => "application/octet-stream"
  | ZenohEncodingId.applicationJson => "application/json"
  | ZenohEncodingId.applicationXml => "application/xml"
  | ZenohEncodingId.applicationCbor => "application/cbor"
  | ZenohEncodingId.applicationYaml => "application/yaml"
  | ZenohEncodingId.applicationProtobuf => "application/protobuf"
  | ZenohEncodingId.applicationCdr => "application/cdr"
  | ZenohEncodingId.custom => "unknown"

/-- zenoh_encoding_from_string (zenoh_ffi.c:282-328).  A NULL argument is
modeled as `none`. -/
def zenoh_encoding_from_string : Option String → ZenohEncodingId
  | none => ZenohEncodingId.empty
  | some str =>
    if str = "zenoh/bytes" then ZenohEncodingId.bytes
    else if str = "zenoh/string" then ZenohEncodingId.string
    else if str = "application/json" then ZenohEncodingId.applicationJson
    else if str = "text/plain" then ZenohEncodingId.textPlain
    else if str = "text/json" then ZenohEncodingId.textJson
    else if str = "text/html" then ZenohEncodingId.textHtml
    else if str = "text/xml" then ZenohEncodingId.textXml
    else if str = "text/css" then ZenohEncodingId.textCss
    else if str = "text/csv" then ZenohEncodingId.textCsv
    else if str = "text/javascript" then ZenohEncodingId.textJavascript
    else if str = "image/png" then ZenohEncodingId.imagePng
    else if str = "image/jpeg" then ZenohEncodingId.imageJpeg
    else if str = "image/gif" then ZenohEncodingId.imageGif
    else if str = "image/bmp" then ZenohEncodingId.imageBmp
    else if str = "image/webp" then ZenohEncodingId.imageWebp
    else if str = "application/octet-stream" then ZenohEncodingId.applicationOctetStream
    else if str = "application/xml" then ZenohEncodingId.applicationXml
    else if str = "application/cbor" then ZenohEncodingId.applicationCbor
    else if str = "application/yaml" then ZenohEncodingId.applicationYaml
    else if str = "application/protobuf" then ZenohEncodingId.applicationProtobuf
    else if str = "application/cdr" then ZenohEncodingId.applicationCdr
    else ZenohEncodingId.custom

/-- The strings recognized by zenoh_encoding_from_string (zenoh_ffi.c:285-326),
in source order. -/
def recognizedEncodingNames : List String :=
  ["zenoh/bytes", "zenoh/string", "application/json", "text/plain", "text/json",
   "text/html", "text/xml", "text/css", "text/csv", "text/javascript",
   "image/png", "image/jpeg", "image/gif", "image/bmp", "image/webp",
   "application/octet-stream", "application/xml", "application/cbor",
   "application/yaml", "application/protobuf", "application/cdr"]

/-! ## Sample marshaling (zenoh_ffi.c:572-635, zenoh_dart.c:147-179) -/

/-- Z_SAMPLE_KIND_PUT / Z_SAMPLE_KIND_DELETE. -/
inductive SampleKind
  | put
  | delete
deriving DecidableEq

/-- The kind string literal chosen at zenoh_ffi.c:589. -/
def kindBytes : SampleKind → Bytes
  | SampleKind.put => strBytes "PUT"
  | SampleKind.delete => strBytes "DELETE"

/-- Model of one incoming z_loaned_sample_t together with the outcome of the
substrate conversions applied to it: `payloadToStringOk` (resp.
`attachmentToStringOk`) records whether z_bytes_to_string on the payload
(resp. attachment) returns 0.  An absent attachment is the empty byte
string (the C guard is `attachment_bytes != NULL && z_bytes_len > 0`). -/
structure Sample where
  key : Bytes
  kind : SampleKind
  payload : Bytes
  payloadToStringOk : Bool
  attachment : Bytes
  attachmentToStringOk : Bool
deriving DecidableEq

/-- A buffer pointer handed to the host callback: a fresh heap allocation
(tagged with its allocation index and contents), a pointer into a
substrate-owned transient view, a pointer to a static string literal, or
NULL. -/
inductive Buf
  | heap (id : Nat) (contents : Bytes)
  | view (contents : Bytes)
  | lit (contents : Bytes)
  | null
deriving DecidableEq

/-- Chronological events produced by a marshaling handler run. -/
inductive MEvent
  | alloc (id : Nat)
  | free (id : Nat)
  | callbackInvoked (key payload : Buf) (len : Nat) (kind att : Buf)
deriving DecidableEq

/-- Events produced by `free(data)` on a possibly-NULL pointer
(free(NULL) is a no-op). -/
def freeBufEvent : Buf → List MEvent
  | Buf.heap i _ => [MEvent.free i]
  | _ => []

/-- get_bytes_data (zenoh_ffi.c:96-117): copies a loaned byte buffer into a
fresh heap buffer via the reader API.  Returns the buffer, the reported
length, the events, and the next allocation index.  A NULL input or an
empty buffer yields (NULL, 0) without allocating; a malloc failure also
yields (NULL, 0). -/
def get_bytes_data (oracle : Nat → Bool) (aid : Nat) (bytes : Option Bytes) :
    Buf × Nat × List MEvent × Nat :=
  match bytes with
  | none => (Buf.null, 0, [], aid)
  | some bs =>
    if bs.length = 0 then (Buf.null, 0, [], aid)
    else if oracle aid = true then (Buf.heap aid bs, bs.length, [MEvent.alloc aid], aid + 1)
    else (Buf.null, 0, [], aid + 1)

/-- The payload extraction of subscriber_data_handler (zenoh_ffi.c:595-609):
if z_bytes_to_string succeeds, `len` is set to the string length and
`data = malloc(len)`; on malloc failure the handler keeps `data = NULL`
while `len` stays at the string length.  Otherwise it falls back to
get_bytes_data.  malloc(0) is modeled as succeeding with an empty heap
buffer (glibc semantics). -/
def marshalPayload (oracle : Nat → Bool) (aid : Nat) (s : Sample) :
    Buf × Nat × List MEvent × Nat :=
  if s.payloadToStringOk = true then
    if oracle aid = true then
      (Buf.heap aid s.payload, s.payload.length, [MEvent.alloc aid], aid + 1)
    else (Buf.null, s.payload.length, [], aid + 1)
  else get_bytes_data oracle aid (some s.payload)

/-- The attachment extraction of subscriber_data_handler
(zenoh_ffi.c:611-628) after the initial 1-byte malloc (allocation `aid`)
has succeeded: with a non-empty attachment whose z_bytes_to_string
succeeds, the 1-byte buffer is freed and a buffer of the attachment is
allocated (allocation `aid + 1`); if that malloc fails the handler
continues with a NULL attachment pointer.  Otherwise the empty 1-byte
string is passed. -/
def marshalAttachment (oracle : Nat → Bool) (aid : Nat) (s : Sample) :
    Buf × List MEvent :=
  if s.attachment.length = 0 then (Buf.heap aid [], [MEvent.alloc aid])
  else if s.attachmentToStringOk = true then
    if oracle (aid + 1) = true then
      (Buf.heap (aid + 1) s.attachment,
       [MEvent.alloc aid, MEvent.free aid, MEvent.alloc (aid + 1)])
    else (Buf.null, [MEvent.alloc aid, MEvent.free aid])
  else (Buf.heap aid [], [MEvent.alloc aid])

/-- subscriber_data_handler (zenoh_ffi.c:572-635).  `hasCallback` models
`sub != NULL && sub->callback != NULL`.  Allocation order: 0 = key,
1 = kind string, then the payload allocation, then the attachment
allocations.  The handler frees nothing after invoking the callback
(ownership passes to the host side). -/
def subscriber_data_handler (oracle : Nat → Bool) (hasCallback : Bool) (s : Sample) :
    List MEvent :=
  if hasCallback = false then []
  else if oracle 0 = false then []
  else if oracle 1 = false then [MEvent.alloc 0, MEvent.free 0]
  else
    match marshalPayload oracle 2 s with
    | (pbuf, plen, pevts, nid) =>
      if oracle nid = false then
        MEvent.alloc 0 :: MEvent.alloc 1 ::
          (pevts ++ [MEvent.free 0, MEvent.free 1] ++ freeBufEvent pbuf)
      else
        match marshalAttachment oracle nid s with
        | (abuf, aevts) =>
          MEvent.alloc 0 :: MEvent.alloc 1 ::
            (pevts ++ aevts ++
              [MEvent.callbackInvoked (Buf.heap 0 s.key) pbuf plen
                (Buf.heap 1 (kindBytes s.kind)) abuf])

/-- subscriber_data_handler of the legacy variant (zenoh_dart.c:147-179):
no copies are made; the key and payload pointers handed to the callback
point into the substrate's transient views, the kind is a static string
literal, and the attachment is the static literal "". -/
def subscriber_data_handler_dart (hasCallback : Bool) (s : Sample) : List MEvent :=
  if hasCallback = false then []
  else
    [MEvent.callbackInvoked (Buf.view s.key) (Buf.view s.payload) s.payload.length
      (Buf.lit (kindBytes s.kind)) (Buf.lit [])]

/-- Does this buffer hold a fresh heap copy of the given bytes? -/
def isHeapCopyOf : Buf → Bytes → Bool
  | Buf.heap _ c, bs => c == bs
  | _, _ => false

/-- Any callback invocation in the trace passes fresh heap copies of the
sample's key, payload (with the matching length), kind string and
attachment. -/
def callbackEventOk (s : Sample) : MEvent → Bool
  | MEvent.callbackInvoked k p l kd a =>
      isHeapCopyOf k s.key && isHeapCopyOf p s.payload && (l == s.payload.length) &&
      isHeapCopyOf kd (kindBytes s.kind) && isHeapCopyOf a s.attachment
  | _ => true

/-- Recognize free events. -/
def isFreeEvent : MEvent → Bool
  | MEvent.free _ => true
  | _ => false

/-- Recognize callback-invocation events. -/
def isCallbackEvent : MEvent → Bool
  | MEvent.callbackInvoked _ _ _ _ _ => true
  | _ => false

/-- No free event occurs after any callback invocation in the trace. -/
def noFreeAfterCallback : List MEvent → Bool
  | [] => true
  | e :: rest =>
    if isCallbackEvent e then
      rest.all (fun x => !(isFreeEvent x)) && noFreeAfterCallback rest
    else noFreeAfterCallback rest

/-- The marshaling contract claimed by the spec for one handler run: every
delivered record consists of fresh heap copies of the sample's fields, and
none of the delivered buffers is freed after the callback returns. -/
def marshalingClaimOK (s : Sample) (evts : List MEvent) : Bool :=
  evts.all (callbackEventOk s) && noFreeAfterCallback evts

/-- A concrete sample: key "a", PUT, payload [1], attachment [7], with all
substrate string conversions succeeding. -/
def sampleA : Sample :=
  { key := [97], kind := SampleKind.put, payload := [1],
    payloadToStringOk := true, attachment := [7], attachmentToStringOk := true }

/-- A concrete sample with a 1-byte payload on the string path and no
attachment. -/
def sampleB : Sample :=
  { key := [107], kind := SampleKind.put, payload := [42],
    payloadToStringOk := true, attachment := [], attachmentToStringOk := true }

/-- A malloc oracle that fails exactly the payload allocation (index 2). -/
def oracleNoPayload : Nat → Bool := fun i => !(i == 2)

/-! ## Idempotent teardown (zenoh_ffi.c:406-411, 775-780) -/

/-- The live-handle heap: addresses of currently allocated handle structs. -/
abbrev HandleHeap := List Nat

/-- C free semantics: freeing a live address removes it from the heap;
freeing a dangling (already released) address is undefined behavior,
modeled as `none`. -/
def freeCell (h : HandleHeap) (a : Nat) : Option HandleHeap :=
  if a ∈ h then some (h.erase a) else none

/-- zenoh_close_session (zenoh_ffi.c:406-411): a NULL pointer is a no-op;
otherwise the substrate session is dropped and the handle struct freed.
The Bool reports whether a release was performed; `none` is the undefined
behavior of dropping and freeing through a dangling pointer. -/
def zenoh_close_session (h : HandleHeap) (p : Option Nat) :
    Option (HandleHeap × Bool) :=
  match p with
  | none => some (h, false)
  | some a => (freeCell h a).map (fun h2 => (h2, true))

/-- zenoh_undeclare_subscriber (zenoh_ffi.c:775-780): same null-guarded
drop-and-free shape as zenoh_close_session. -/
def zenoh_undeclare_subscriber (h : HandleHeap) (p : Option Nat) :
    Option (HandleHeap × Bool) :=
  match p with
  | none => some (h, false)
  | some a => (freeCell h a).map (fun h2 => (h2, true))

/-! ## Synchronous validation before substrate calls
(zenoh_ffi.c:436-462, 503-518, 786-807, 848-860) -/

/-- Substrate declare/put/delete primitives that an operation may invoke. -/
inductive SubstrateCall
  | declarePublisher (key : String)
  | putOp (key : String)
  | deleteOp (key : String)
  | publisherPut
deriving DecidableEq

/-- zenoh_declare_publisher (zenoh_ffi.c:436-462).  `validKey` models the
substrate key validator z_view_keyexpr_from_str; `declareOk` the outcome
of z_declare_publisher; `mallocOk` the wrapper-struct malloc.  Returns the
handle (or NULL) and the list of substrate declare/put/delete primitives
invoked. -/
def zenoh_declare_publisher (validKey : String → Bool) (declareOk mallocOk : Bool)
    (session : Option Unit) (key : Option String) :
    Option Unit × List SubstrateCall :=
  match session, key with
  | some _, some k =>
    if validKey k = true then
      if declareOk = true then
        if mallocOk = true then (some (), [SubstrateCall.declarePublisher k])
        else (none, [SubstrateCall.declarePublisher k])
      else (none, [SubstrateCall.declarePublisher k])
    else (none, [])
  | _, _ => (none, [])

/-- zenoh_put (zenoh_ffi.c:786-807).  `rc` is the status returned by the
substrate z_put. -/
def zenoh_put (validKey : String → Bool) (rc : Int)
    (session : Option Unit) (key : Option String) : Int × List SubstrateCall :=
  match session, key with
  | some _, some k =>
    if validKey k = true then (rc, [SubstrateCall.putOp k]) else (-1, [])
  | _, _ => (-1, [])

/-- zenoh_delete (zenoh_ffi.c:848-860). -/
def zenoh_delete (validKey : String → Bool) (rc : Int)
    (session : Option Unit) (key : Option String) : Int × List SubstrateCall :=
  match session, key with
  | some _, some k =>
    if validKey k = true then (rc, [SubstrateCall.deleteOp k]) else (-1, [])
  | _, _ => (-1, [])

/-- zenoh_publisher_put (zenoh_ffi.c:503-518): a NULL publisher handle is
rejected with -1 before any substrate call. -/
def zenoh_publisher_put (rc : Int) (pub : Option Unit) : Int × List SubstrateCall :=
  match pub with
  | none => (-1, [])
  | some _ => (rc, [SubstrateCall.publisherPut])

/-! ## Asynchronous get and query completion (zenoh_ffi.c:866-986) -/

/-- GetContext (zenoh_ffi.c:38-43); callbacks are identified by opaque
numeric tokens, `none` standing for NULL. -/
structure GetContext where
  callback : Option Nat
  complete_callback : Option Nat
  timeout_ms : Nat
deriving DecidableEq

/-- ZenohGetOptions (zenoh_dart.h:129-138), restricted to the field the
modelled claims depend on. -/
structure GetOptions where
  timeout_ms : Nat
deriving DecidableEq

/-- zenoh_get_async_with_options (zenoh_ffi.c:932-986), projected onto the
per-query context it registers: early returns (NULL session or selector,
rejected selector, context malloc failure) issue no query and yield
`none`; otherwise the context stores the two callbacks and the timeout. -/
def zenoh_get_async_with_options (validKey : String → Bool) (mallocOk : Bool)
    (session : Option Unit) (selector : Option String)
    (callback complete_callback : Option Nat) (opts : Option GetOptions) :
    Option GetContext :=
  match session, selector with
  | some _, some sel =>
    if validKey sel = true then
      if mallocOk = true then
        some { callback := callback, complete_callback := complete_callback,
               timeout_ms := match opts with
                             | some o => o.timeout_ms
                             | none => 10000 }
      else none
    else none
  | _, _ => none

/-- Events affecting the per-query context during the query's lifetime. -/
inductive QEvent
  | replyCallback
  | completeCall (cb : Nat)
  | freeCtx
deriving DecidableEq

/-- get_reply_handler (zenoh_ffi.c:866-909), projected onto the events that
touch the per-query context: it may invoke the reply callback (when the
reply is OK and marshaling succeeds; buffer events are modelled in the
marshaling section), and it never invokes the complete callback and never
frees the context. -/
def get_reply_handler (ctx : Option GetContext) (replyIsOk marshalOk : Bool) :
    List QEvent :=
  match ctx with
  | none => []
  | some c =>
    match c.callback with
    | none => []
    | some _ =>
      if replyIsOk = true then
        if marshalOk = true then [QEvent.replyCallback] else []
      else []

/-- drop_get_context (zenoh_ffi.c:911-920): on a non-NULL context, invoke
the complete callback when one was supplied, then free the context. -/
def drop_get_context (ctx : Option GetContext) : List QEvent :=
  match ctx with
  | none => []
  | some c =>
    (match c.complete_callback with
     | some f => [QEvent.completeCall f]
     | none => []) ++ [QEvent.freeCtx]

/-- Modelled from the spec: the substrate (an external collaborator) invokes
the registered reply closure once per incoming reply and, when the query
concludes by timeout or exhaustion of responders, invokes the closure's
drop handler exactly once.  Each element of `replies` carries the
z_reply_is_ok outcome and the marshaling outcome for one reply. -/
def runQuery (ctx : GetContext) (replies : List (Bool × Bool)) : List QEvent :=
  (replies.map (fun r => get_reply_handler (some ctx) r.1 r.2)).flatten ++
    drop_get_context (some ctx)

/-! ## Session opening (zenoh_ffi.c:334-380, zenoh_dart.c:34-71) -/

/-- Configuration keys touched by zenoh_open_session. -/
inductive ConfigKey
  | modeKey
  | connectKey
  | listenKey
  | multicastScoutingKey
deriving DecidableEq

/-- Does `hay` start with `needle`? -/
def prefixMatches : List Char → List Char → Bool
  | [], _ => true
  | _ :: _, [] => false
  | a :: as, b :: bs => a == b && prefixMatches as bs

/-- C strstr: does the haystack contain the needle as a contiguous
subsequence? -/
def containsSeq (needle : List Char) : List Char → Bool
  | [] => needle.isEmpty
  | c :: rest => prefixMatches needle (c :: rest) || containsSeq needle rest

/-- The configuration insertions performed by zenoh_open_session
(zenoh_ffi.c:334-363): the mode is inserted JSON-quoted when non-NULL, and
non-empty endpoints are always inserted under the connect key, whatever
the mode.  `apple` models the __APPLE__ conditional compilation. -/
def zenoh_open_session_config (apple : Bool) (mode endpoints : Option String) :
    List (ConfigKey × String) :=
  (match mode with
   | some m => [(ConfigKey.modeKey, "\"" ++ m ++ "\"")]
   | none => []) ++
  (match endpoints with
   | some e => if 0 < e.length then [(ConfigKey.connectKey, e)] else []
   | none => []) ++
  (if apple = true then [(ConfigKey.multicastScoutingKey, "false")] else [])

/-- The configuration insertions performed by the legacy zenoh_open_session
(zenoh_dart.c:34-57): the mode is inserted unquoted, and non-empty
endpoints go under the listen key when strstr(mode, "peer") matches and
under the connect key otherwise. -/
def zenoh_open_session_dart_config (apple : Bool) (mode : String)
    (endpoints : Option String) : List (ConfigKey × String) :=
  [(ConfigKey.modeKey, mode)] ++
  (match endpoints with
   | some e =>
     if 0 < e.length then
       if containsSeq "peer".data mode.data = true then [(ConfigKey.listenKey, e)]
       else [(ConfigKey.connectKey, e)]
     else []
   | none => []) ++
  (if apple = true then [(ConfigKey.multicastScoutingKey, "false")] else [])

/-! ## Liveliness get (zenoh_ffi.c:1260-1290) -/

/-- The issued liveliness query: the registered callback and the effective
timeout handed to the substrate. -/
structure LivelinessQuery where
  callback : Option Nat
  timeout_ms : Nat
deriving DecidableEq

/-- zenoh_liveliness_get (zenoh_ffi.c:1260-1290): early returns (NULL
session or key, rejected key, context malloc failure) issue no query;
otherwise the query is issued with timeout `timeout_ms` when positive and
10000 ms when zero (zenoh_ffi.c:1282). -/
def zenoh_liveliness_get (validKey : String → Bool) (mallocOk : Bool)
    (session : Option Unit) (key : Option String) (callback : Option Nat)
    (timeout_ms : Nat) : Option LivelinessQuery :=
  match session, key with
  | some _, some k =>
    if validKey k = true then
      if mallocOk = true then
        some { callback := callback,
               timeout_ms := if 0 < timeout_ms then timeout_ms else 10000 }
      else none
    else none
  | _, _ => none

/-! ## Theorems -/

/-- Claim C7, counterexample: the string mapping is not bidirectional at
ZENOH_ENCODING_EMPTY: zenoh_encoding_to_string gives "empty", which
zenoh_encoding_from_string maps to the CUSTOM sentinel, not back to EMPTY. -/
theorem encoding_roundtrip_fails_for_empty :
    zenoh_encoding_from_string (some (zenoh_encoding_to_string ZenohEncodingId.empty)) =
      ZenohEncodingId.custom ∧
    ZenohEncodingId.custom ≠ ZenohEncodingId.empty :=
  ⟨rfl, by decide⟩

/-- Claim C7 (amended): for every encoding identifier other than
ZENOH_ENCODING_EMPTY and ZENOH_ENCODING_JSON, applying
zenoh_encoding_from_string to zenoh_encoding_to_string returns the same
identifier.  EMPTY maps through "empty" to CUSTOM, and JSON maps through
"application/json" to APPLICATION_JSON, so those two do not round-trip. -/
theorem encoding_roundtrip_except_empty_and_json (id : ZenohEncodingId)
    (h1 : id ≠ ZenohEncodingId.empty) (h2 : id ≠ ZenohEncodingId.json) :
    zenoh_encoding_from_string (some (zenoh_encoding_to_string id)) = id := by
  cases id <;> first
    | rfl
    | exact absurd rfl h1
    | exact absurd rfl h2

/-- Witness for the amended C7 round-trip at ZENOH_ENCODING_BYTES. -/
theorem encoding_roundtrip_except_empty_and_json_witness :
    zenoh_encoding_from_string (some (zenoh_encoding_to_string ZenohEncodingId.bytes)) =
      ZenohEncodingId.bytes :=
  encoding_roundtrip_except_empty_and_json ZenohEncodingId.bytes (by decide) (by decide)

/-- Claim C8: every string outside the recognized encoding names is mapped
to the ZENOH_ENCODING_CUSTOM sentinel; no string input yields an error. -/
theorem unknown_encoding_maps_to_custom (s : String)
    (h : s ∉ recognizedEncodingNames) :
    zenoh_encoding_from_string (some s) = ZenohEncodingId.custom := by
  simp only [recognizedEncodingNames, List.mem_cons, List.not_mem_nil, or_false,
    not_or] at h
  obtain ⟨h1, h2, h3, h4, h5, h6, h7, h8, h9, h10, h11, h12, h13, h14, h15, h16,
    h17, h18, h19, h20, h21⟩ := h
  simp only [zenoh_encoding_from_string, if_neg h1, if_neg h2, if_neg h3,
    if_neg h4, if_neg h5, if_neg h6, if_neg h7, if_neg h8, if_neg h9, if_neg h10,
    if_neg h11, if_neg h12, if_neg h13, if_neg h14, if_neg h15, if_neg h16,
    if_neg h17, if_neg h18, if_neg h19, if_neg h20, if_neg h21]

/-- Witness for C8 at the unrecognized string "foo". -/
theorem unknown_encoding_maps_to_custom_witness :
    zenoh_encoding_from_string (some "foo") = ZenohEncodingId.custom :=
  unknown_encoding_maps_to_custom "foo" (by decide)

/-- Claim C9: zenoh_encoding_from_string applied to NULL returns
ZENOH_ENCODING_EMPTY, which is neither the CUSTOM sentinel nor an error. -/
theorem encoding_from_null_is_empty :
    zenoh_encoding_from_string none = ZenohEncodingId.empty ∧
    ZenohEncodingId.empty ≠ ZenohEncodingId.custom :=
  ⟨rfl, by decide⟩

/-- Claim C10: whenever zenoh_liveliness_get actually issues a query, a zero
timeout_ms argument yields the default timeout of 10000 ms and a positive
timeout_ms is used exactly. -/
theorem liveliness_get_timeout_default (validKey : String → Bool)
    (mallocOk : Bool) (session : Option Unit) (key : Option String)
    (callback : Option Nat) (timeout_ms : Nat) (q : LivelinessQuery)
    (h : zenoh_liveliness_get validKey mallocOk session key callback timeout_ms =
      some q) :
    (timeout_ms = 0 → q.timeout_ms = 10000) ∧
    (0 < timeout_ms → q.timeout_ms = timeout_ms) := by
  cases session with
  | none => simp [zenoh_liveliness_get] at h
  | some u =>
    cases key with
    | none => simp [zenoh_liveliness_get] at h
    | some k =>
      simp only [zenoh_liveliness_get] at h
      split_ifs at h with hv hm hpos
      · injection h with h2
        subst h2
        constructor
        · intro ht
          exact absurd hpos (by rw [ht]; exact lt_irrefl 0)
        · intro ht
          rfl
      · injection h with h2
        subst h2
        constructor
        · intro ht
          rfl
        · intro ht
          exact absurd ht hpos

/-- Witness for C10 at timeout_ms = 0 (valid inputs, default timeout). -/
theorem liveliness_get_timeout_default_witness :
    zenoh_liveliness_get (fun _ => true) true (some ()) (some "group/member")
      none 0 = some { callback := none, timeout_ms := 10000 } ∧
    ({ callback := none, timeout_ms := 10000 } : LivelinessQuery).timeout_ms =
      10000 :=
  ⟨rfl, (liveliness_get_timeout_default (fun _ => true) true (some ())
    (some "group/member") none 0 { callback := none, timeout_ms := 10000 } rfl).1 rfl⟩

/-- Claim C3, code-bug exhibit: with every allocation succeeding except the
payload copy (allocation index 2), subscriber_data_handler still invokes
the host callback, passing a NULL payload pointer paired with the non-zero
length 1 — the partially-populated record the spec forbids — instead of
skipping the event. -/
theorem payload_alloc_failure_still_invokes_callback :
    subscriber_data_handler oracleNoPayload true sampleB =
      [MEvent.alloc 0, MEvent.alloc 1, MEvent.alloc 3,
       MEvent.callbackInvoked (Buf.heap 0 [107]) Buf.null 1
         (Buf.heap 1 (kindBytes SampleKind.put)) (Buf.heap 3 [])] ∧
    (subscriber_data_handler oracleNoPayload true sampleB).any isCallbackEvent =
      true :=
  ⟨rfl, rfl⟩

/-- Claim C1, counterexample: the legacy marshaling handler
(zenoh_dart.c:147-179) passes the callback pointers into the substrate's
transient views (key and payload) and static literals (kind, attachment)
rather than fresh heap copies, so the claimed marshaling contract fails on
a concrete sample. -/
theorem dart_subscriber_marshaling_passes_views :
    subscriber_data_handler_dart true sampleA =
      [MEvent.callbackInvoked (Buf.view [97]) (Buf.view [1]) 1
        (Buf.lit (kindBytes SampleKind.put)) (Buf.lit [])] ∧
    marshalingClaimOK sampleA (subscriber_data_handler_dart true sampleA) = false :=
  ⟨rfl, rfl⟩

/-- Claim C2, counterexample: the first close of a live session handle frees
it, so calling zenoh_close_session a second time with the same non-null
pointer reaches free on a dangling pointer — undefined behavior (`none`),
not a no-op. -/
theorem close_session_twice_is_double_free :
    zenoh_close_session [0] (some 0) = some ([], true) ∧
    zenoh_close_session [] (some 0) = none :=
  ⟨rfl, rfl⟩

/-- Claim C2 (amended): close/undeclare with a null pointer is a no-op; a
first call on a live handle releases it; but a second call on the same
non-null, already-released handle is a double free (undefined behavior),
since the code guards only against null. -/
theorem teardown_null_noop_second_close_double_free (h : HandleHeap)
    (p : Option Nat) :
    (p = none → zenoh_close_session h p = some (h, false) ∧
      zenoh_undeclare_subscriber h p = some (h, false)) ∧
    (∀ a, p = some a → a ∈ h →
      zenoh_close_session h p = some (h.erase a, true) ∧
      zenoh_undeclare_subscriber h p = some (h.erase a, true)) ∧
    (∀ a, p = some a → a ∉ h →
      zenoh_close_session h p = none ∧
      zenoh_undeclare_subscriber h p = none) := by
  refine ⟨fun hp => ?_, fun a hp ha => ?_, fun a hp ha => ?_⟩
  · subst hp; exact ⟨rfl, rfl⟩
  · subst hp
    simp [zenoh_close_session, zenoh_undeclare_subscriber, freeCell, ha]
  · subst hp
    simp [zenoh_close_session, zenoh_undeclare_subscriber, freeCell, ha]

/-- Witness for the amended C2: the first close of live handle 5 releases it. -/
theorem teardown_null_noop_second_close_double_free_witness :
    zenoh_close_session [5] (some 5) = some (([5] : HandleHeap).erase 5, true) :=
  ((teardown_null_noop_second_close_double_free [5] (some 5)).2.1 5 rfl
    (by decide)).1

/-- Claim C4: a declare or put/delete call with a null session, a null
handle, or a key the validator rejects returns its error result (NULL
handle or -1) and invokes no substrate declare/put/delete primitive. -/
theorem invalid_inputs_rejected_without_substrate_call
    (validKey : String → Bool) (declareOk mallocOk : Bool) (rc : Int)
    (session : Option Unit) (key : Option String)
    (h : session = none ∨ key = none ∨
      ∃ k, key = some k ∧ validKey k = false) :
    zenoh_declare_publisher validKey declareOk mallocOk session key = (none, []) ∧
    zenoh_put validKey rc session key = (-1, []) ∧
    zenoh_delete validKey rc session key = (-1, []) ∧
    zenoh_publisher_put rc none = (-1, []) := by
  refine ⟨?_, ?_, ?_, rfl⟩ <;>
    rcases h with rfl | rfl | ⟨k, rfl, hk⟩ <;>
      first
        | (cases key <;> rfl)
        | (cases session <;> rfl)
        | (cases session with
            | none => rfl
            | some u =>
              simp [zenoh_declare_publisher, zenoh_put, zenoh_delete, hk])

/-- Witness for C4 at the empty key expression, rejected by the validator. -/
theorem invalid_inputs_rejected_without_substrate_call_witness :
    zenoh_declare_publisher (fun k => !(k == "")) true true (some ()) (some "") =
      (none, []) ∧
    zenoh_put (fun k => !(k == "")) 0 (some ()) (some "") = (-1, []) ∧
    zenoh_delete (fun k => !(k == "")) 0 (some ()) (some "") = (-1, []) ∧
    zenoh_publisher_put 0 none = (-1, []) :=
  invalid_inputs_rejected_without_substrate_call (fun k => !(k == "")) true true 0
    (some ()) (some "") (Or.inr (Or.inr ⟨"", rfl, by decide⟩))

/-- Claim C1 (amended): the current marshaling handler (zenoh_ffi.c's
subscriber_data_handler), when every allocation succeeds and the
substrate's byte-to-string conversions succeed, invokes the registered
callback exactly once with fresh heap copies of the sample's key, kind,
payload and attachment, and frees none of the delivered buffers after the
callback; the legacy zenoh_dart.c handler instead passes pointers into the
substrate's transient views, so the claim fails for it. -/
theorem subscriber_marshaling_fresh_heap_unfreed (oracle : Nat → Bool)
    (s : Sample) (ho : ∀ i, oracle i = true) (hp : s.payloadToStringOk = true)
    (ha : s.attachmentToStringOk = true) :
    marshalingClaimOK s (subscriber_data_handler oracle true s) = true ∧
    ((subscriber_data_handler oracle true s).filter isCallbackEvent).length = 1 := by
  have h0 := ho 0
  have h1 := ho 1
  have h2 := ho 2
  have h3 := ho 3
  have h4 := ho 4
  by_cases hA : s.attachment.length = 0
  · have hAe : s.attachment = [] := List.length_eq_zero.mp hA
    have htr : subscriber_data_handler oracle true s =
        [MEvent.alloc 0, MEvent.alloc 1, MEvent.alloc 2, MEvent.alloc 3,
         MEvent.callbackInvoked (Buf.heap 0 s.key) (Buf.heap 2 s.payload)
           s.payload.length (Buf.heap 1 (kindBytes s.kind)) (Buf.heap 3 [])] := by
      simp [subscriber_data_handler, marshalPayload, marshalAttachment, hp, hA,
        h0, h1, h2, h3]
    rw [htr]
    constructor
    · simp [marshalingClaimOK, callbackEventOk, noFreeAfterCallback,
        isCallbackEvent, isFreeEvent, isHeapCopyOf, hAe]
    · simp [isCallbackEvent]
  · have htr : subscriber_data_handler oracle true s =
        [MEvent.alloc 0, MEvent.alloc 1, MEvent.alloc 2, MEvent.alloc 3,
         MEvent.free 3, MEvent.alloc 4,
         MEvent.callbackInvoked (Buf.heap 0 s.key) (Buf.heap 2 s.payload)
           s.payload.length (Buf.heap 1 (kindBytes s.kind))
           (Buf.heap 4 s.attachment)] := by
      simp [subscriber_data_handler, marshalPayload, marshalAttachment, hp, hA,
        ha, h0, h1, h2, h3, h4]
    rw [htr]
    constructor
    · simp [marshalingClaimOK, callbackEventOk, noFreeAfterCallback,
        isCallbackEvent, isFreeEvent, isHeapCopyOf]
    · simp [isCallbackEvent]

/-- Witness for the amended C1 at a concrete sample with an all-success
allocation oracle. -/
theorem subscriber_marshaling_fresh_heap_unfreed_witness :
    marshalingClaimOK sampleA (subscriber_data_handler (fun _ => true) true sampleA) =
      true ∧
    ((subscriber_data_handler (fun _ => true) true sampleA).filter
      isCallbackEvent).length = 1 :=
  subscriber_marshaling_fresh_heap_unfreed (fun _ => true) sampleA (fun _ => rfl)
    rfl rfl

/-- Claim C5: whenever zenoh_get_async_with_options actually issues a query
with a non-null complete callback, the query's event trace ends with
exactly one invocation of the complete callback followed by exactly one
release of the per-query context; everything before is only reply
deliveries. -/
theorem complete_callback_once_then_ctx_freed
    (validKey : String → Bool) (mallocOk : Bool) (session : Option Unit)
    (selector : Option String) (callback : Option Nat) (f : Nat)
    (opts : Option GetOptions) (ctx : GetContext) (replies : List (Bool × Bool))
    (h : zenoh_get_async_with_options validKey mallocOk session selector
      callback (some f) opts = some ctx) :
    runQuery ctx replies =
      (replies.map (fun r => get_reply_handler (some ctx) r.1 r.2)).flatten ++
        [QEvent.completeCall f, QEvent.freeCtx] ∧
    ∀ e ∈ (replies.map (fun r => get_reply_handler (some ctx) r.1 r.2)).flatten,
      e = QEvent.replyCallback := by
  have hcc : ctx.complete_callback = some f := by
    cases session with
    | none => simp [zenoh_get_async_with_options] at h
    | some u =>
      cases selector with
      | none => simp [zenoh_get_async_with_options] at h
      | some sel =>
        simp only [zenoh_get_async_with_options] at h
        split_ifs at h
        · injection h with h2
          subst h2
          rfl
  constructor
  · simp [runQuery, drop_get_context, hcc]
  · intro e he
    rw [List.mem_flatten] at he
    obtain ⟨l, hl, hel⟩ := he
    rw [List.mem_map] at hl
    obtain ⟨r, hr, rfl⟩ := hl
    revert hel
    simp only [get_reply_handler]
    cases hcb : ctx.callback with
    | none => intro hel; exact absurd hel (List.not_mem_nil e)
    | some c =>
      split_ifs
      · intro hel
        simpa using hel
      · intro hel
        exact absurd hel (List.not_mem_nil e)
      · intro hel
        exact absurd hel (List.not_mem_nil e)

/-- Witness for C5: a query issued with complete callback 2, receiving one
successful reply. -/
theorem complete_callback_once_then_ctx_freed_witness :
    runQuery (GetContext.mk (some 1) (some 2) 10000) [(true, true)] =
      [QEvent.replyCallback, QEvent.completeCall 2, QEvent.freeCtx] := by
  have h := complete_callback_once_then_ctx_freed (fun _ => true) true (some ())
    (some "demo/key") (some 1) 2 none (GetContext.mk (some 1) (some 2) 10000)
    [(true, true)] rfl
  rw [h.1]
  rfl

/-- Claim C6, counterexample: zenoh_ffi.c's zenoh_open_session called in
peer mode with a non-empty endpoints string inserts the endpoints under
the connect key, not the listen key the claim requires for peer mode. -/
theorem ffi_open_session_peer_endpoints_use_connect :
    zenoh_open_session_config false (some "peer") (some "tcp/192.168.1.1:7447") =
      [(ConfigKey.modeKey, "\"peer\""),
       (ConfigKey.connectKey, "tcp/192.168.1.1:7447")] ∧
    (ConfigKey.listenKey, "tcp/192.168.1.1:7447") ∉
      zenoh_open_session_config false (some "peer") (some "tcp/192.168.1.1:7447") :=
  ⟨rfl, by decide⟩

/-- Claim C6 (amended): zenoh_ffi.c's zenoh_open_session inserts non-empty
endpoints under the connect key for every mode, peer included, and never
under the listen key; only the legacy zenoh_dart.c variant inserts them
under the listen key when the mode contains "peer" and under the connect
key otherwise. -/
theorem open_session_endpoints_connect_vs_listen (apple : Bool) (m e : String)
    (he : 0 < e.length) :
    ((ConfigKey.connectKey, e) ∈ zenoh_open_session_config apple (some m) (some e) ∧
     ∀ v, (ConfigKey.listenKey, v) ∉
       zenoh_open_session_config apple (some m) (some e)) ∧
    (containsSeq "peer".data m.data = true →
      (ConfigKey.listenKey, e) ∈ zenoh_open_session_dart_config apple m (some e)) ∧
    (containsSeq "peer".data m.data = false →
      (ConfigKey.connectKey, e) ∈ zenoh_open_session_dart_config apple m (some e)) := by
  refine ⟨⟨?_, ?_⟩, fun hpeer => ?_, fun hpeer => ?_⟩
  · simp [zenoh_open_session_config, he]
  · intro v hv
    cases apple <;> simp [zenoh_open_session_config, he] at hv
  · simp [zenoh_open_session_dart_config, he, hpeer]
  · simp [zenoh_open_session_dart_config, he, hpeer]

/-- Witness for the amended C6 in peer mode with a non-empty endpoint. -/
theorem open_session_endpoints_connect_vs_listen_witness :
    (ConfigKey.connectKey, "tcp/a") ∈
      zenoh_open_session_config false (some "peer") (some "tcp/a") ∧
    (ConfigKey.listenKey, "tcp/a") ∈
      zenoh_open_session_dart_config false "peer" (some "tcp/a") :=
  ⟨(open_session_endpoints_connect_vs_listen false "peer" "tcp/a" (by decide)).1.1,
   (open_session_endpoints_connect_vs_listen false "peer" "tcp/a" (by decide)).2.1
     (by rfl)⟩

end ZenohFfi
